import Mathlib

/-!
Verification of the Distill-Factory chat facade against its specification.

The development shallowly embeds the parts of the repository that the
spec talks about: the vllm engine wrapper (VllmEngine.chat and
VllmEngine.stream_chat in src/distillr1/chat/vllm_engine.py), the
synchronous/asynchronous bridge (ChatModel in
src/distillr1/chat/chat_model.py), the distillation entry point
(run_exp in src/distillr1/distill/run_exp.py) and the logging setup
(setup_logger in src/log/logger.py).

Texts and token sequences are modelled as Lean lists; Python None is
Option.none; a Python exception is a value of PyError carried by Except.
The underlying third-party inference engine is out of scope of the spec,
so its result stream enters the model as an explicit list of
RequestOutput records (its async generator, drained in arrival order).
-/

namespace DistillFactory

/-- Python exceptions that the modelled code can raise. -/
inductive PyError where
  | nameError (name : String)
  | notImplementedError (msg : String)
  | attributeError (msg : String)
  deriving Repr, DecidableEq

/-- One generated sequence inside a vllm RequestOutput: cumulative text,
generated token ids and the finish reason (None while unfinished). -/
structure CompletionOutput where
  text : List Char
  token_ids : List Nat
  finish_reason : Option String
  deriving Repr, DecidableEq

/-- One element of the async result stream of the wrapped engine. -/
structure RequestOutput where
  prompt_token_ids : List Nat
  outputs : List CompletionOutput
  deriving Repr, DecidableEq

/-- The plain result record returned by the chat engine for one
generation request (base_engine.Response, fields as constructed at
vllm_engine.py lines 176-181). -/
structure Response where
  response_text : List Char
  response_length : Nat
  prompt_length : Nat
  finish_reason : Option String
  deriving Repr, DecidableEq

/-- The Response built from one CompletionOutput of the final
RequestOutput, exactly as VllmEngine.chat builds it. -/
def responseOfOutput (final : RequestOutput) (o : CompletionOutput) : Response :=
  { response_text := o.text
    response_length := o.token_ids.length
    prompt_length := final.prompt_token_ids.length
    finish_reason := o.finish_reason }

namespace VllmEngine

/-- The body of VllmEngine.chat after the generator is obtained:
final_output starts as None, the async-for overwrites it with every
arriving RequestOutput (a left fold over the stream), and the Response
list is built from final_output. Accessing .outputs on None would raise
AttributeError, modelled as Option.none. -/
def chat (stream : List RequestOutput) : Option (List Response) :=
  match stream.foldl (fun _ r => some r) none with
  | none => none
  | some final_output => some (final_output.outputs.map (responseOfOutput final_output))

/-- Recursion of VllmEngine.stream_chat: generated_text accumulates the
cumulative text seen so far, each arriving result yields the slice
result.outputs[0].text[len(generated_text):]. Indexing outputs[0] on an
empty list would raise, modelled as Option.none. -/
def streamChatGo (generated_text : List Char) : List RequestOutput → Option (List (List Char))
  | [] => some []
  | r :: rs =>
    match r.outputs with
    | [] => none
    | o :: _ =>
      (streamChatGo o.text rs).map (fun ds => o.text.drop generated_text.length :: ds)

/-- The body of VllmEngine.stream_chat after the generator is obtained:
the list of yielded delta strings in yield order. -/
def stream_chat (stream : List RequestOutput) : Option (List (List Char)) :=
  streamChatGo [] stream

end VllmEngine

/-- The cumulative text of the first output sequence of a stream
element, as read by stream_chat (result.outputs[0].text). -/
def headText (r : RequestOutput) : List Char :=
  (r.outputs.headD ⟨[], [], none⟩).text

/-- The stream element b carries a cumulative text extending that of a:
the monotone growth vllm guarantees for its cumulative stream. -/
def textExtends (a b : RequestOutput) : Prop :=
  ∃ t, headText a ++ t = headText b

/- Helper: the async-for fold that keeps only the last element. -/

theorem foldl_keep_last (l : List RequestOutput) (init : Option RequestOutput) :
    l.foldl (fun _ r => some r) init = l.getLast?.or init := by
  induction l generalizing init with
  | nil => rfl
  | cons x xs ih =>
    rw [List.foldl_cons, ih (some x)]
    cases xs with
    | nil => rfl
    | cons y ys =>
      rw [List.getLast?_cons_cons]
      cases h : (y :: ys).getLast? with
      | none => exact absurd h (by simp)
      | some z => rfl

/-! ### Python name resolution in vllm_engine.py

A Python name lookup succeeds when the name is bound in the local scope,
in the module's global scope, or among the builtins; otherwise the
interpreter raises NameError. The lists below are read off the source:
the module-level bindings of vllm_engine.py (its imports, the module
logger, and the class), and the names bound inside each method body
(parameters plus assigned locals). -/

/-- Module-level names bound in vllm_engine.py: the import statements,
the conditional vllm imports, the module logger and the class itself. -/
def vllmModuleNames : List String :=
  ["uuid", "TYPE_CHECKING", "Any", "AsyncGenerator", "AsyncIterator", "Dict",
   "List", "Optional", "Sequence", "Union", "override", "logging",
   "get_device_count", "is_vllm_available", "load_config", "load_tokenizer",
   "BaseEngine", "Response", "AsyncEngineArgs", "AsyncLLMEngine",
   "RequestOutput", "SamplingParams", "LoRARequest", "logger", "VllmEngine"]

/-- Names bound in the local scope of VllmEngine._generate: its
parameters and every name assigned somewhere in the body. -/
def generateLocalNames : List String :=
  ["self", "messages", "system", "tools", "images", "videos", "audios",
   "input_kwargs", "temperature", "top_p", "top_k", "num_return_sequences",
   "repetition_penalty", "length_penalty", "max_length", "max_new_tokens",
   "stop", "max_tokens", "sampling_params", "result_generator"]

/-- Names bound in the local scope of VllmEngine.__init__: its
parameters and every name assigned somewhere in the body. -/
def initLocalNames : List String :=
  ["self", "model_args", "data_args", "finetuning_args", "generating_args",
   "config", "quantization_config", "quant_method", "tokenizer_module",
   "engine_args"]

/-- The Python builtins the module could fall back to. -/
def pythonBuiltins : List String :=
  ["len", "getattr", "setattr", "isinstance", "dict", "list", "tuple", "str",
   "int", "float", "bool", "print", "range", "enumerate", "zip", "map",
   "filter", "super", "type", "id", "repr", "open", "input", "None", "True",
   "False", "Exception", "ValueError", "TypeError", "KeyError",
   "RuntimeError", "NotImplementedError", "AttributeError", "NameError"]

/-- Evaluate a name under Python scoping rules: raise NameError when the
name is bound neither locally, nor at module level, nor as a builtin. -/
def resolveName (locals moduleGlobals : List String) (n : String) : Except PyError Unit :=
  if n ∈ locals ∨ n ∈ moduleGlobals ∨ n ∈ pythonBuiltins then
    Except.ok ()
  else
    Except.error (PyError.nameError n)

namespace VllmEngine

/-- Evaluation of the argument of self.model.generate inside _generate:
the dict literal reads the free names prompt_ids and multi_modal_data,
in that order, before the call can happen. -/
def generateCall : Except PyError Unit := do
  let _ ← resolveName generateLocalNames vllmModuleNames "prompt_ids"
  let _ ← resolveName generateLocalNames vllmModuleNames "multi_modal_data"
  Except.ok ()

/-- VllmEngine.chat as actually reachable: it awaits _generate, whose
body evaluates the generate-call arguments, before draining the stream
the engine would return. -/
def chatEntry (stream : List RequestOutput) : Except PyError (Option (List Response)) := do
  let _ ← generateCall
  Except.ok (chat stream)

/-- VllmEngine.stream_chat as actually reachable: it awaits _generate
before consuming the stream. -/
def streamChatEntry (stream : List RequestOutput) : Except PyError (Option (List (List Char))) := do
  let _ ← generateCall
  Except.ok (stream_chat stream)

/-- The unconditional line of VllmEngine.__init__ that evaluates
get_template_and_fix_tokenizer (line 61 of vllm_engine.py). -/
def initTemplateLookup : Except PyError Unit :=
  resolveName initLocalNames vllmModuleNames "get_template_and_fix_tokenizer"

end VllmEngine

/-! ### The synchronous/asynchronous bridge (chat_model.py) -/

/-- A concurrent.futures future as returned by
asyncio.run_coroutine_threadsafe: it carries the coroutine's outcome. -/
structure TaskFuture (ε α : Type) where
  outcome : Except ε α

/-- asyncio.run_coroutine_threadsafe: schedule the coroutine on the
background loop and hand back a future holding its outcome. -/
def runCoroutineThreadsafe (coro : Except ε α) : TaskFuture ε α :=
  ⟨coro⟩

/-- Future.result(): block until done, then return the coroutine's value
or re-raise its exception. -/
def TaskFuture.result (t : TaskFuture ε α) : Except ε α :=
  t.outcome

/-- A ChatModel instance: its engine, modelled as the function from chat
arguments to the outcome the engine coroutine produces, and the id of
the event loop created at construction. -/
structure ChatModel (Args : Type) where
  engineChat : Args → Except PyError (List Response)
  loopId : Nat

/-- ChatModel.achat: await self.engine.chat on the given arguments. -/
def ChatModel.achat (m : ChatModel Args) (a : Args) : Except PyError (List Response) :=
  m.engineChat a

/-- ChatModel.chat: submit the achat coroutine to the background loop
via asyncio.run_coroutine_threadsafe and block on task.result(). -/
def ChatModel.chat (m : ChatModel Args) (a : Args) : Except PyError (List Response) :=
  (runCoroutineThreadsafe (m.achat a)).result

/-- The full facade stack over a vllm backend whose generate call is
modelled as the oracle gen from arguments to the drained result stream:
ChatModel.chat delegates to achat, which awaits VllmEngine.chat, which
drains the stream; accessing attributes of a None final output raises
AttributeError. -/
def chatPipeline (gen : Args → List RequestOutput) (a : Args) : Except PyError (List Response) :=
  (runCoroutineThreadsafe
    (match VllmEngine.chat (gen a) with
     | none => Except.error (PyError.attributeError "NoneType object has no attribute outputs")
     | some rs => Except.ok rs)).result

/-! ### Loop and thread lifecycle (chat_model.py lines 59-61, 76-78) -/

/-- Observable resource events of the bridge: creating an event loop,
starting a thread bound to a loop, submitting a coroutine to a loop. -/
inductive LoopEvent where
  | newEventLoop (loopId : Nat)
  | startThread (threadId : Nat) (daemon : Bool) (loopId : Nat)
  | submitCoroutine (loopId : Nat)
  deriving Repr, DecidableEq

/-- The bridge state a ChatModel keeps: self._loop and self._thread. -/
structure BridgeState where
  loopId : Nat
  threadId : Nat
  deriving Repr, DecidableEq

/-- The tail of ChatModel.__init__: asyncio.new_event_loop() allocates a
fresh loop, Thread(target=_start_background_loop, args=(loop,),
daemon=True) is created and started, and both are stored on self. -/
def initBridge (freshLoop freshThread : Nat) : BridgeState × List LoopEvent :=
  (⟨freshLoop, freshThread⟩,
   [LoopEvent.newEventLoop freshLoop,
    LoopEvent.startThread freshThread true freshLoop])

/-- The submission a single ChatModel.chat call performs:
asyncio.run_coroutine_threadsafe(..., self._loop). -/
def chatSubmit (m : BridgeState) : List LoopEvent :=
  [LoopEvent.submitCoroutine m.loopId]

/-- The resource trace of one ChatModel over its lifetime: construction
followed by any number of synchronous chat calls. -/
def lifecycleTrace (freshLoop freshThread numChats : Nat) : List LoopEvent :=
  (initBridge freshLoop freshThread).2 ++
    (List.range numChats).flatMap (fun _ => chatSubmit (initBridge freshLoop freshThread).1)

/-- Recognize loop-creation events. -/
def isNewLoop : LoopEvent → Bool
  | LoopEvent.newEventLoop _ => true
  | _ => false

/-- Recognize thread-start events. -/
def isThreadStart : LoopEvent → Bool
  | LoopEvent.startThread _ _ _ => true
  | _ => false

/-- Recognize coroutine submissions. -/
def isSubmit : LoopEvent → Bool
  | LoopEvent.submitCoroutine _ => true
  | _ => false

/-! ### Configuration (hparams) and backend dispatch (ChatModel.__init__) -/

/-- The fields of ModelArguments that ChatModel.__init__ and the engine
constructors read, plus representative further configuration fields
needed to state the frame property. -/
structure ModelArguments where
  model_name_or_path : String
  infer_backend : String
  infer_dtype : String
  trust_remote_code : Bool
  vllm_maxlen : Nat
  deriving Repr, DecidableEq

/-- The fields of DataArguments the modelled code touches, plus a
representative further field for the frame property. -/
structure DataArguments where
  template : String
  dataset : String
  deriving Repr, DecidableEq

/-- The field of FinetuningArguments the vllm engine reads. -/
structure FinetuningArguments where
  stage : String
  deriving Repr, DecidableEq

/-- Representative sampling defaults from GeneratingArguments. -/
structure GeneratingArguments where
  temperature : Nat
  top_p : Nat
  top_k : Nat
  repetition_penalty : Nat
  deriving Repr, DecidableEq

/-- The override step at the top of ChatModel.__init__ (chat_model.py
lines 43-47): replace model_args.model_name_or_path when the
model_name_or_path parameter is not None, and data_args.template when
the template parameter is not None. -/
def applyOverrides (model_args : ModelArguments) (data_args : DataArguments)
    (model_name_or_path : Option String) (template : Option String) :
    ModelArguments × DataArguments :=
  let ma := match model_name_or_path with
    | some p => { model_args with model_name_or_path := p }
    | none => model_args
  let da := match template with
    | some t => { data_args with template := t }
    | none => data_args
  (ma, da)

/-- The engine a ChatModel constructs, with the arguments it passes. -/
inductive Engine where
  | huggingface (ma : ModelArguments) (da : DataArguments) (ga : GeneratingArguments)
  | vllm (ma : ModelArguments) (da : DataArguments) (fa : FinetuningArguments)
      (ga : GeneratingArguments)
  deriving Repr, DecidableEq

/-- The backend dispatch of ChatModel.__init__ (chat_model.py lines
50-57): HuggingfaceEngine for "huggingface", VllmEngine for "vllm",
NotImplementedError otherwise. -/
def selectEngine (model_args : ModelArguments) (data_args : DataArguments)
    (finetuning_args : FinetuningArguments) (generating_args : GeneratingArguments) :
    Except PyError Engine :=
  if model_args.infer_backend = "huggingface" then
    Except.ok (Engine.huggingface model_args data_args generating_args)
  else if model_args.infer_backend = "vllm" then
    Except.ok (Engine.vllm model_args data_args finetuning_args generating_args)
  else
    Except.error (PyError.notImplementedError
      ("Unknown backend: " ++ model_args.infer_backend))

/-! ### The distillation entry point (run_exp.py) -/

set_option linter.unusedVariables false

/-- The collaborators run_exp calls, none of which is defined in
run_exp.py itself: they enter the model as oracle functions over
abstract types (Router for the api router, Info for model infos, Client
for the parsed clients, Parsed for the five parsed argument objects, QA
for the question/answer lists, Result for the distillation outcome). -/
structure ExpEnv (Args Router Info Client Parsed QA Result : Type) where
  run_api : Router
  get_model_infos : Router → Info
  parse_client : Info → Client
  get_origin_infer_args : Args → Parsed
  get_qa_pairs : Parsed → QA
  distill : Parsed → Client → QA → Result

/-- The body of run_exp (run_exp.py lines 15-28), with max_try as in the
signature: start the api router, fetch and parse the client list, parse
the arguments, load the question/answer pairs, build the Distiller and
await one distill() pass. -/
def run_exp (env : ExpEnv Args Router Info Client Parsed QA Result)
    (args : Args) (max_try : Nat) : Result :=
  let router := env.run_api
  let model_infos := env.get_model_infos router
  let clients := env.parse_client model_infos
  let parsed := env.get_origin_infer_args args
  let qa := env.get_qa_pairs parsed
  env.distill parsed clients qa

/-! ### Logging setup (src/log/logger.py) -/

/-- Logging severity levels used by logger.py. -/
inductive LogLevel where
  | DEBUG
  | INFO
  | WARNING
  deriving Repr, DecidableEq

/-- The kind of a logging handler: a FileHandler writing to a path, or a
StreamHandler writing to a stream such as stderr. -/
inductive HandlerKind where
  | fileHandler (path : String)
  | streamHandler (stream : String)
  deriving Repr, DecidableEq

/-- A logging handler with its threshold level and attached formatter
(the format string; None before setFormatter). -/
structure Handler where
  kind : HandlerKind
  level : LogLevel
  formatter : Option String
  deriving Repr, DecidableEq

/-- A logger object: its name, threshold level and handler list. -/
structure Logger where
  name : String
  level : LogLevel
  handlers : List Handler
  deriving Repr, DecidableEq

/-- The state logger.py acts on: file contents by path, and the logging
registry of named loggers. -/
structure LogWorld where
  files : String → String
  loggers : String → Option Logger

/-- logging.getLogger(name): return the registered logger, or a fresh
one (default WARNING level, no handlers) when none exists. -/
def getLogger (w : LogWorld) (n : String) : Logger :=
  match w.loggers n with
  | some l => l
  | none => ⟨n, LogLevel.WARNING, []⟩

/-- The format string built in setup_logger. -/
def logFormat : String :=
  "%(asctime)s - %(name)s - %(levelname)s - %(message)s"

/-- setup_logger (logger.py lines 6-24): open the log file for writing
and write the empty string (truncating it), fetch the logger named
"logger", set it to DEBUG, build an INFO-level FileHandler on the file
and a DEBUG-level stderr StreamHandler, give both the same timestamped
formatter, attach both, and return the logger. -/
def setup_logger (w : LogWorld) (log_file : String) : LogWorld × Logger :=
  let files := fun p => if p = log_file then "" else w.files p
  let log := getLogger w "logger"
  let log := { log with level := LogLevel.DEBUG }
  let fileHandler : Handler :=
    ⟨HandlerKind.fileHandler log_file, LogLevel.INFO, some logFormat⟩
  let streamHandler : Handler :=
    ⟨HandlerKind.streamHandler "stderr", LogLevel.DEBUG, some logFormat⟩
  let log := { log with handlers := log.handlers ++ [fileHandler, streamHandler] }
  ({ files := files
     loggers := fun n => if n = "logger" then some log else w.loggers n },
   log)

/-! ## Sample data used by the witness theorems -/

/-- A finished request output with one generated sequence. -/
def sampleFinal : RequestOutput :=
  ⟨[11, 12], [⟨['o', 'k'], [3, 4, 5], some "stop"⟩]⟩

/-- A two-element result stream ending in sampleFinal. -/
def sampleStream : List RequestOutput :=
  [⟨[11, 12], [⟨['o'], [3], none⟩]⟩, sampleFinal]

/-! ## Theorems for the claims -/

/-- Claim C1: VllmEngine.chat drains the result stream of the
underlying engine (modelled as the explicit list of RequestOutput the
generator yields) to its final element and returns one Response per
generated output of that final element, copying the output text, the
generated-token count, the prompt-token count and the finish reason:
the facade is a pass-through of the engine's final result. -/
theorem vllm_chat_pass_through (stream : List RequestOutput) (final : RequestOutput)
    (h : stream.getLast? = some final) :
    VllmEngine.chat stream = some (final.outputs.map (responseOfOutput final)) ∧
    ∀ o : CompletionOutput,
      (responseOfOutput final o).response_text = o.text ∧
      (responseOfOutput final o).response_length = o.token_ids.length ∧
      (responseOfOutput final o).prompt_length = final.prompt_token_ids.length ∧
      (responseOfOutput final o).finish_reason = o.finish_reason := by
  constructor
  · unfold VllmEngine.chat
    rw [foldl_keep_last, h]
    rfl
  · exact fun o => ⟨rfl, rfl, rfl, rfl⟩

/-- Witness for C1 on a concrete two-element stream. -/
theorem vllm_chat_pass_through_witness :
    sampleStream.getLast? = some sampleFinal ∧
    (VllmEngine.chat sampleStream = some (sampleFinal.outputs.map (responseOfOutput sampleFinal)) ∧
     ∀ o : CompletionOutput,
       (responseOfOutput sampleFinal o).response_text = o.text ∧
       (responseOfOutput sampleFinal o).response_length = o.token_ids.length ∧
       (responseOfOutput sampleFinal o).prompt_length = sampleFinal.prompt_token_ids.length ∧
       (responseOfOutput sampleFinal o).finish_reason = o.finish_reason) :=
  ⟨rfl, vllm_chat_pass_through sampleStream sampleFinal rfl⟩

/-- Claim C2: the vllm generation path cannot complete: the
generate-call inside _generate reads the names prompt_ids and
multi_modal_data, which are bound neither among _generate's locals nor
at module level nor among the builtins, so chat and stream_chat raise
NameError for prompt_ids on every argument list; likewise
VllmEngine.__init__ reads the unbound name
get_template_and_fix_tokenizer. -/
theorem vllm_engine_raises_name_error :
    (∀ stream : List RequestOutput,
       VllmEngine.chatEntry stream = Except.error (PyError.nameError "prompt_ids")) ∧
    (∀ stream : List RequestOutput,
       VllmEngine.streamChatEntry stream = Except.error (PyError.nameError "prompt_ids")) ∧
    VllmEngine.initTemplateLookup =
      Except.error (PyError.nameError "get_template_and_fix_tokenizer") :=
  ⟨fun _ => rfl, fun _ => rfl, rfl⟩

/-- Claim C3: ChatModel.chat submits the achat coroutine to the
background loop as a thread-safe future and blocks on its result, so
the synchronous call returns exactly the outcome achat yields — the
value it produces, or the exception it raises, carried over unchanged. -/
theorem chat_equals_achat {Args : Type} (m : ChatModel Args) (a : Args) :
    m.chat a = m.achat a :=
  rfl

/-- Claim C4: ChatModel.__init__ dispatches on infer_backend alone:
a HuggingfaceEngine exactly when it is "huggingface", a VllmEngine
exactly when it is "vllm", and NotImplementedError on anything else. -/
theorem select_engine_dispatch (ma : ModelArguments) (da : DataArguments)
    (fa : FinetuningArguments) (ga : GeneratingArguments) :
    (selectEngine ma da fa ga = Except.ok (Engine.huggingface ma da ga) ↔
       ma.infer_backend = "huggingface") ∧
    (selectEngine ma da fa ga = Except.ok (Engine.vllm ma da fa ga) ↔
       ma.infer_backend = "vllm") ∧
    (ma.infer_backend ≠ "huggingface" → ma.infer_backend ≠ "vllm" →
       selectEngine ma da fa ga =
         Except.error (PyError.notImplementedError
           ("Unknown backend: " ++ ma.infer_backend))) := by
  by_cases h1 : ma.infer_backend = "huggingface"
  · simp [selectEngine, h1]
  · by_cases h2 : ma.infer_backend = "vllm"
    · simp [selectEngine, h1, h2]
    · simp [selectEngine, h1, h2]

/-- Sample model arguments selecting an unknown backend. -/
def sampleModelArgs : ModelArguments :=
  ⟨"Qwen2.5-7B", "openai", "auto", false, 4096⟩

/-- Sample data arguments. -/
def sampleDataArgs : DataArguments :=
  ⟨"qwen", "demo"⟩

/-- Sample finetuning arguments. -/
def sampleFinetuningArgs : FinetuningArguments :=
  ⟨"sft"⟩

/-- Sample generating arguments. -/
def sampleGeneratingArgs : GeneratingArguments :=
  ⟨1, 1, 50, 1⟩

/-- Witness for C4 at a concrete unknown backend. -/
theorem select_engine_dispatch_witness :
    sampleModelArgs.infer_backend ≠ "huggingface" ∧
    sampleModelArgs.infer_backend ≠ "vllm" ∧
    selectEngine sampleModelArgs sampleDataArgs sampleFinetuningArgs sampleGeneratingArgs =
      Except.error (PyError.notImplementedError
        ("Unknown backend: " ++ sampleModelArgs.infer_backend)) :=
  ⟨by decide, by decide,
   (select_engine_dispatch sampleModelArgs sampleDataArgs sampleFinetuningArgs
      sampleGeneratingArgs).2.2 (by decide) (by decide)⟩

/-- Claim C5: no retry or recovery on the core path: an exception the
engine raises during achat propagates unchanged through the
background-loop future to the synchronous chat caller, and run_exp
performs one pass whose result never depends on its max_try
parameter. -/
theorem no_retry_and_max_try_unused
    {Args Router Info Client Parsed QA Result A : Type} :
    (∀ (env : ExpEnv Args Router Info Client Parsed QA Result) (args : Args)
       (t t' : Nat), run_exp env args t = run_exp env args t') ∧
    (∀ (m : ChatModel A) (a : A) (e : PyError),
       m.achat a = Except.error e → m.chat a = Except.error e) :=
  ⟨fun _ _ _ _ => rfl, fun _ _ _ h => h⟩

/-- A concrete environment for run_exp over Nat-coded collaborators. -/
def sampleExpEnv : ExpEnv Nat Nat Nat Nat Nat Nat Nat :=
  ⟨0, id, id, id, id, fun p c q => p + c + q⟩

/-- A chat model whose engine always raises. -/
def errChatModel : ChatModel Nat :=
  ⟨fun _ => Except.error (PyError.nameError "prompt_ids"), 0⟩

/-- Witness for C5: run_exp agrees at max_try 3 and 100, and the erring
engine's exception reaches the synchronous caller unchanged. -/
theorem no_retry_and_max_try_unused_witness :
    run_exp sampleExpEnv 5 3 = run_exp sampleExpEnv 5 100 ∧
    errChatModel.achat 5 = Except.error (PyError.nameError "prompt_ids") ∧
    errChatModel.chat 5 = Except.error (PyError.nameError "prompt_ids") :=
  ⟨(@no_retry_and_max_try_unused Nat Nat Nat Nat Nat Nat Nat Nat).1 sampleExpEnv 5 3 100,
   rfl,
   (@no_retry_and_max_try_unused Nat Nat Nat Nat Nat Nat Nat Nat).2 errChatModel 5
     (PyError.nameError "prompt_ids") rfl⟩

/- Helper induction for stream_chat: over a stream of nonempty outputs
whose cumulative texts extend one another, starting from any
already-yielded text that the first arriving text extends, the yielded
deltas rebuild every intermediate cumulative text and hence the final
one. -/

theorem streamChatGo_spec (stream : List RequestOutput) :
    ∀ generated : List Char,
    (∀ r ∈ stream, r.outputs ≠ []) →
    List.Chain' textExtends stream →
    (∀ f, stream.head? = some f → ∃ t, generated ++ t = headText f) →
    ∃ ds, VllmEngine.streamChatGo generated stream = some ds ∧
      ds.length = stream.length ∧
      generated ++ ds.flatten = (stream.map headText).getLastD generated ∧
      ∀ i (hi : i < stream.length),
        generated ++ (ds.take (i + 1)).flatten = headText (stream.get ⟨i, hi⟩) := by
  induction stream with
  | nil =>
    intro generated _ _ _
    exact ⟨[], rfl, rfl, by simp, fun i hi => absurd hi (by simp)⟩
  | cons r rs ih =>
    intro generated h1 h2 h3
    obtain ⟨o, os, ho⟩ : ∃ o os, r.outputs = o :: os := by
      cases hout : r.outputs with
      | nil => exact absurd hout (h1 r (List.mem_cons_self r rs))
      | cons o os => exact ⟨o, os, rfl⟩
    have hhead : headText r = o.text := by simp [headText, ho]
    obtain ⟨t, ht⟩ := h3 r rfl
    have ht' : generated ++ t = o.text := by rw [← hhead]; exact ht
    have hdrop : o.text.drop generated.length = t := by
      rw [← ht']; exact List.drop_left generated t
    have hgen : generated ++ o.text.drop generated.length = o.text := by
      rw [hdrop]; exact ht'
    have h1' : ∀ x ∈ rs, x.outputs ≠ [] :=
      fun x hx => h1 x (List.mem_cons_of_mem r hx)
    have h2' : List.Chain' textExtends rs := (List.chain'_cons'.mp h2).2
    have h3' : ∀ f, rs.head? = some f → ∃ u, o.text ++ u = headText f := by
      intro f hf
      obtain ⟨u, hu⟩ := (List.chain'_cons'.mp h2).1 f hf
      exact ⟨u, by rw [← hhead]; exact hu⟩
    obtain ⟨ds', hgo, hlen, hflat, hidx⟩ := ih o.text h1' h2' h3'
    refine ⟨o.text.drop generated.length :: ds', ?_, ?_, ?_, ?_⟩
    · simp [VllmEngine.streamChatGo, ho, hgo]
    · simp [hlen]
    · rw [List.flatten_cons, ← List.append_assoc, hgen, List.map_cons,
        List.getLastD_cons, hhead, hflat]
    · intro i hi
      cases i with
      | zero =>
        simp only [List.take_succ_cons, List.take_zero, List.flatten_cons,
          List.flatten_nil, List.append_nil, List.get]
        rw [hgen, hhead]
      | succ i =>
        have hi' : i < rs.length := by
          simpa using Nat.lt_of_succ_lt_succ hi
        rw [List.take_succ_cons, List.flatten_cons, ← List.append_assoc, hgen,
          List.get_cons_succ]
        exact hidx i hi'

/-- Claim C6: for a stream of results whose first-sequence texts are
cumulative (each extends the previous, as the wrapped engine produces
them), the deltas yielded by VllmEngine.stream_chat concatenate, in
yield order, to exactly the final cumulative text; moreover after every
yield the deltas so far concatenate to the current cumulative text, so
each delta is exactly the suffix beyond what was already yielded. -/
theorem stream_chat_concatenates (stream : List RequestOutput) (fin : RequestOutput)
    (h0 : stream.getLast? = some fin)
    (h1 : ∀ r ∈ stream, r.outputs ≠ [])
    (h2 : List.Chain' textExtends stream) :
    ∃ ds, VllmEngine.stream_chat stream = some ds ∧
      ds.flatten = headText fin ∧
      ds.length = stream.length ∧
      ∀ i (hi : i < stream.length),
        (ds.take (i + 1)).flatten = headText (stream.get ⟨i, hi⟩) := by
  obtain ⟨ds, hgo, hlen, hflat, hidx⟩ :=
    streamChatGo_spec stream [] h1 h2 (fun f _ => ⟨headText f, by simp⟩)
  refine ⟨ds, hgo, ?_, hlen, fun i hi => ?_⟩
  · have : ([] : List Char) ++ ds.flatten = headText fin := by
      rw [hflat, List.getLastD_eq_getLast?, List.getLast?_map, h0]
      rfl
    simpa using this
  · simpa using hidx i hi

/-- A cumulative two-step stream: first "He", then "Hello". -/
def sampleMonoFinal : RequestOutput :=
  ⟨[7], [⟨['H', 'e', 'l', 'l', 'o'], [1, 2], some "stop"⟩]⟩

/-- The stream whose texts grow from "He" to "Hello". -/
def sampleMonoStream : List RequestOutput :=
  [⟨[7], [⟨['H', 'e'], [1], none⟩]⟩, sampleMonoFinal]

/-- The sample stream is a chain under textExtends. -/
theorem sampleMonoStream_chain : List.Chain' textExtends sampleMonoStream :=
  List.Chain'.cons ⟨['l', 'l', 'o'], rfl⟩ (List.chain'_singleton sampleMonoFinal)

/-- Witness for C6 on the concrete cumulative stream. -/
theorem stream_chat_concatenates_witness :
    sampleMonoStream.getLast? = some sampleMonoFinal ∧
    (∀ r ∈ sampleMonoStream, r.outputs ≠ []) ∧
    List.Chain' textExtends sampleMonoStream ∧
    ∃ ds, VllmEngine.stream_chat sampleMonoStream = some ds ∧
      ds.flatten = headText sampleMonoFinal ∧
      ds.length = sampleMonoStream.length ∧
      ∀ i (hi : i < sampleMonoStream.length),
        (ds.take (i + 1)).flatten = headText (sampleMonoStream.get ⟨i, hi⟩) :=
  ⟨rfl, by decide, sampleMonoStream_chain,
   stream_chat_concatenates sampleMonoStream sampleMonoFinal rfl (by decide)
     sampleMonoStream_chain⟩

/-- Claim C7: the wrapper layers add no nondeterminism of their own:
the full facade result is a function of the arguments and of the stream
the wrapped engine produces for them, so two calls whose engine streams
agree on identical arguments return identical response lists. -/
theorem facade_deterministic {Args : Type} (gen gen' : Args → List RequestOutput)
    (a a' : Args) (hargs : a = a') (hgen : gen a = gen' a') :
    chatPipeline gen a = chatPipeline gen' a' := by
  subst hargs
  unfold chatPipeline
  rw [hgen]

/-- A constant engine oracle over the sample stream. -/
def constGen : Nat → List RequestOutput := fun _ => sampleStream

/-- Witness for C7 at a concrete oracle and argument. -/
theorem facade_deterministic_witness :
    (0 : Nat) = 0 ∧ constGen 0 = constGen 0 ∧
    chatPipeline constGen 0 = chatPipeline constGen 0 :=
  ⟨rfl, rfl, facade_deterministic constGen constGen 0 0 rfl rfl⟩

/- Helper: flat-mapping a constant singleton yields a replicate. -/

theorem flatMap_const_singleton (l : List α) (x : β) :
    l.flatMap (fun _ => [x]) = List.replicate l.length x := by
  induction l with
  | nil => rfl
  | cons a as ihs => simp [List.flatMap_cons, ihs, List.replicate_succ]

/-- Claim C8: over the whole lifetime of a ChatModel — construction
followed by any number of synchronous chat calls — exactly one event
loop is created, exactly one thread is started (daemon, bound to that
loop), and every chat call submits its coroutine to that same loop. -/
theorem single_loop_single_thread (freshLoop freshThread numChats : Nat) :
    (lifecycleTrace freshLoop freshThread numChats).filter isNewLoop =
      [LoopEvent.newEventLoop freshLoop] ∧
    (lifecycleTrace freshLoop freshThread numChats).filter isThreadStart =
      [LoopEvent.startThread freshThread true freshLoop] ∧
    (lifecycleTrace freshLoop freshThread numChats).filter isSubmit =
      List.replicate numChats (LoopEvent.submitCoroutine freshLoop) := by
  have hrep : (List.range numChats).flatMap
      (fun _ => [LoopEvent.submitCoroutine freshLoop]) =
      List.replicate numChats (LoopEvent.submitCoroutine freshLoop) := by
    rw [flatMap_const_singleton, List.length_range]
  have htrace : lifecycleTrace freshLoop freshThread numChats =
      LoopEvent.newEventLoop freshLoop ::
        LoopEvent.startThread freshThread true freshLoop ::
          List.replicate numChats (LoopEvent.submitCoroutine freshLoop) := by
    simp only [lifecycleTrace, initBridge, chatSubmit]
    rw [hrep]
    rfl
  rw [htrace]
  refine ⟨?_, ?_, ?_⟩ <;>
    simp [List.filter_cons, List.filter_replicate, isNewLoop, isThreadStart, isSubmit]

/-- Claim C9: the override step of ChatModel.__init__ replaces
model_args.model_name_or_path exactly when the model_name_or_path
parameter is not None and data_args.template exactly when the template
parameter is not None, and leaves every other field of both parsed
argument objects unchanged. -/
theorem apply_overrides_frame (ma : ModelArguments) (da : DataArguments)
    (mnop tmpl : Option String) :
    (applyOverrides ma da mnop tmpl).1.model_name_or_path =
        mnop.getD ma.model_name_or_path ∧
    (applyOverrides ma da mnop tmpl).2.template = tmpl.getD da.template ∧
    (applyOverrides ma da mnop tmpl).1.infer_backend = ma.infer_backend ∧
    (applyOverrides ma da mnop tmpl).1.infer_dtype = ma.infer_dtype ∧
    (applyOverrides ma da mnop tmpl).1.trust_remote_code = ma.trust_remote_code ∧
    (applyOverrides ma da mnop tmpl).1.vllm_maxlen = ma.vllm_maxlen ∧
    (applyOverrides ma da mnop tmpl).2.dataset = da.dataset := by
  cases mnop <;> cases tmpl <;> simp [applyOverrides]

/-- Claim C10: setup_logger truncates the log file to empty regardless
of its prior contents, and returns the logger named "logger" at DEBUG
level with exactly two handlers newly appended: an INFO-level file
handler on that file and a DEBUG-level stderr stream handler, both
carrying the same timestamped format; the registry entry for "logger"
is updated to the returned logger. The hypothesis states the logging
registry invariant that a registered logger carries its key as name. -/
theorem setup_logger_spec (w : LogWorld) (log_file : String)
    (hw : ∀ n l, w.loggers n = some l → l.name = n) :
    (setup_logger w log_file).1.files log_file = "" ∧
    (setup_logger w log_file).2.name = "logger" ∧
    (setup_logger w log_file).2.level = LogLevel.DEBUG ∧
    (setup_logger w log_file).2.handlers =
      (getLogger w "logger").handlers ++
        [⟨HandlerKind.fileHandler log_file, LogLevel.INFO, some logFormat⟩,
         ⟨HandlerKind.streamHandler "stderr", LogLevel.DEBUG, some logFormat⟩] ∧
    (setup_logger w log_file).1.loggers "logger" = some (setup_logger w log_file).2 := by
  refine ⟨by simp [setup_logger], ?_, rfl, rfl, by simp [setup_logger]⟩
  show (getLogger w "logger").name = "logger"
  unfold getLogger
  cases hl : w.loggers "logger" with
  | none => rfl
  | some l => exact hw "logger" l hl

/-- A concrete logging world: every file holds old text, no loggers. -/
def sampleLogWorld : LogWorld :=
  ⟨fun _ => "previous contents", fun _ => none⟩

/-- Witness for C10 on the empty registry and the file runtime.log. -/
theorem setup_logger_spec_witness :
    (∀ n l, sampleLogWorld.loggers n = some l → l.name = n) ∧
    ((setup_logger sampleLogWorld "runtime.log").1.files "runtime.log" = "" ∧
     (setup_logger sampleLogWorld "runtime.log").2.name = "logger" ∧
     (setup_logger sampleLogWorld "runtime.log").2.level = LogLevel.DEBUG ∧
     (setup_logger sampleLogWorld "runtime.log").2.handlers =
       (getLogger sampleLogWorld "logger").handlers ++
         [⟨HandlerKind.fileHandler "runtime.log", LogLevel.INFO, some logFormat⟩,
          ⟨HandlerKind.streamHandler "stderr", LogLevel.DEBUG, some logFormat⟩] ∧
     (setup_logger sampleLogWorld "runtime.log").1.loggers "logger" =
       some (setup_logger sampleLogWorld "runtime.log").2) :=
  ⟨fun _ _ h => Option.noConfusion h,
   setup_logger_spec sampleLogWorld "runtime.log" (fun _ _ h => Option.noConfusion h)⟩

end DistillFactory
